import Mathlib

/-!
Verification development for the moving-average outlier detector
(src/moving_average/moving_average.py, class outliers).

Modelling conventions:
* Dates are integers (ordinal days): the source parses date strings with a
  fixed format into a totally ordered datetime type, and only order, min and
  max of dates matter to the detector.
* Floating-point values are modelled as real numbers; a pandas cell that may
  be NaN is modelled as an optional real, with none standing for NaN.
  Comparisons against NaN are false in the source, which the predicates
  nanLT and nanGT reproduce on optionals.
* pandas Series.rolling(window=N) uses min_periods = N, so the rolling mean
  is defined (non-NaN) at index i exactly when the trailing window is full
  (N <= i + 1, for positive N); the rolling standard deviation uses the
  sample convention (ddof = 1) and is additionally NaN whenever the window
  holds fewer than two observations, hence it needs 2 <= N.
* The in-place mutation of the caller's data frame performed by the
  constructor is modelled by explicit state passing: init returns the final
  state of the data frame next to its result.
-/

namespace MovingAverage

/-- Dates as a totally ordered type (ordinal days). -/
abbrev Date := Int

/-- The observable type of the date column of a data frame: raw strings
before the to_datetime coercion, datetime afterwards. -/
inductive DType where
  | str
  | datetime
  deriving DecidableEq

/-- A two-column pandas data frame: column names, the type of the first
(date) column, and the rows (date, value). -/
structure DataFrame where
  cols : List String
  dateType : DType
  rows : List (Date × ℝ)

/-- The validation errors raised by the constructor. -/
inductive InitError where
  | emptyInput
  | windowTooLarge
  deriving DecidableEq

/-- The state of the detector object after a successful construction:
fields self.data, self.date, self.sigma, self.N, self.start, self.end. -/
structure Detector where
  data : List ℝ
  date : List Date
  sigma : ℝ
  N : ℤ
  start : Date
  endDate : Date

/-- One row of the result frame of find_outliers: columns Date,
Abnormal_values, Lower Bound, Upper Bound.  The bound cells are optional
reals because the source stores raw pandas cells, which may be NaN. -/
structure OutlierRecord where
  date : Date
  value : ℝ
  lower : Option ℝ
  upper : Option ℝ

/-- Python min over a nonempty date column (0 for the empty column, which
the source never reaches because of the emptiness check). -/
def minDate : List Date → Date
  | [] => 0
  | x :: xs => xs.foldl min x

/-- Python max over a nonempty date column. -/
def maxDate : List Date → Date
  | [] => 0
  | x :: xs => xs.foldl max x

/-- The constructor outliers.__init__, with the mutation of the caller's
frame made explicit: the second component is the state of the data frame
after the call.  Faithful order of operations: emptiness check, column
rename and to_datetime coercion, date-range resolution, attribute
assignment, window-size check. -/
noncomputable def init (data_frame : DataFrame) (window_size : ℤ) (sigma : ℝ)
    (start_date end_date : Option Date) : Except InitError Detector × DataFrame :=
  if data_frame.rows.isEmpty then
    (Except.error InitError.emptyInput, data_frame)
  else
    let df : DataFrame :=
      { data_frame with cols := ["Date", "Value"], dateType := DType.datetime }
    let dates : List Date := df.rows.map Prod.fst
    let se : Date × Date :=
      match start_date, end_date with
      | some s, some e => (s, e)
      | some s, none => (s, maxDate dates)
      | none, some e => (minDate dates, e)
      | none, none => (minDate dates, maxDate dates)
    let o : Detector :=
      { data := df.rows.map Prod.snd
        date := dates
        sigma := sigma
        N := window_size
        start := se.1
        endDate := se.2 }
    if (o.data.length : ℤ) < o.N then
      (Except.error InitError.windowTooLarge, df)
    else
      (Except.ok o, df)

/-- Arithmetic mean of a list of reals. -/
noncomputable def listMean (l : List ℝ) : ℝ := l.sum / l.length

/-- Sample variance (ddof = 1) of a list of reals. -/
noncomputable def sampleVar (l : List ℝ) : ℝ :=
  (l.map fun x => (x - listMean l) ^ 2).sum / ((l.length : ℝ) - 1)

/-- The trailing window of length N ending at index i (both endpoints
included): elements at indices i+1-N .. i. -/
def windowSlice (xs : List ℝ) (N : ℕ) (i : ℕ) : List ℝ :=
  (xs.take (i + 1)).drop (i + 1 - N)

/-- Cell i of data.rolling(window=N).mean(): the mean of the full trailing
window when it exists, NaN (none) otherwise. -/
noncomputable def meanAt (xs : List ℝ) (N : ℤ) (i : ℕ) : Option ℝ :=
  if 1 ≤ N ∧ N ≤ (i : ℤ) + 1 then some (listMean (windowSlice xs N.toNat i)) else none

/-- Cell i of data.rolling(window=N).std(): the sample standard deviation of
the full trailing window; NaN (none) without a full window and also for
windows of fewer than two observations (ddof = 1). -/
noncomputable def stdAt (xs : List ℝ) (N : ℤ) (i : ℕ) : Option ℝ :=
  if 2 ≤ N ∧ N ≤ (i : ℤ) + 1 then some (Real.sqrt (sampleVar (windowSlice xs N.toNat i))) else none

/-- The series self.data.rolling(window=self.N).mean(). -/
noncomputable def rollingMean (xs : List ℝ) (N : ℤ) : List (Option ℝ) :=
  (List.range xs.length).map (meanAt xs N)

/-- The series self.data.rolling(window=self.N).std(). -/
noncomputable def rollingStd (xs : List ℝ) (N : ℤ) : List (Option ℝ) :=
  (List.range xs.length).map (stdAt xs N)

/-- The series avg + self.sigma * std, with elementwise NaN propagation. -/
noncomputable def upper_bound (o : Detector) : List (Option ℝ) :=
  List.zipWith (Option.map₂ fun m s => m + o.sigma * s)
    (rollingMean o.data o.N) (rollingStd o.data o.N)

/-- The series avg - self.sigma * std, with elementwise NaN propagation. -/
noncomputable def lower_bound (o : Detector) : List (Option ℝ) :=
  List.zipWith (Option.map₂ fun m s => m - o.sigma * s)
    (rollingMean o.data o.N) (rollingStd o.data o.N)

/-- Python x < b for a float x and a possibly-NaN cell b: false on NaN. -/
def nanLT (x : ℝ) (b : Option ℝ) : Prop := ∃ y, b = some y ∧ x < y

/-- Python x > b for a float x and a possibly-NaN cell b: false on NaN. -/
def nanGT (x : ℝ) (b : Option ℝ) : Prop := ∃ y, b = some y ∧ y < x

/-- Python zip over four parallel sequences (truncating at the shortest). -/
def zip4 {α β γ δ : Type} : List α → List β → List γ → List δ → List (α × β × γ × δ)
  | a :: as, b :: bs, c :: cs, d :: ds => (a, b, c, d) :: zip4 as bs cs ds
  | _, _, _, _ => []

section
open Classical

/-- outliers.find_outliers: the comprehension
[(date, value, lower, upper) for date, value, upper, lower in
 zip(self.date, self.data, upper_bound, lower_bound)
 if (value < lower) or (value > upper)].
The third zip component is bound to the variable named upper and the fourth
to the variable named lower, matching the source's binder order; the emitted
tuple reorders them as (date, value, lower, upper). -/
noncomputable def find_outliers (o : Detector) : List OutlierRecord :=
  ((zip4 o.date o.data (upper_bound o) (lower_bound o)).filter fun t =>
      decide (nanLT t.2.1 t.2.2.2 ∨ nanGT t.2.1 t.2.2.1)).map
    fun t => { date := t.1, value := t.2.1, lower := t.2.2.2, upper := t.2.2.1 }

/-- outliers.get_outliers: the pair ('Sucess', 'No anomalies found') when
find_outliers returned the empty list, otherwise ('Failure', records
restricted to dates in [self.start, self.end]).  The first component models
the tag string of the source (including its misspelling), the second the
payload, which is a message string or a record frame. -/
noncomputable def get_outliers (o : Detector) : String × (String ⊕ List OutlierRecord) :=
  let outliers := find_outliers o
  if outliers.length = 0 then
    ("Sucess", Sum.inl "No anomalies found")
  else
    ("Failure",
      Sum.inr (outliers.filter fun r => decide (o.start ≤ r.date ∧ r.date ≤ o.endDate)))

/-- Index-wise reading of the claims about find_outliers: at an index whose
rolling mean and rolling standard deviation are both defined, the original
value is an outlier exactly when it lies strictly below mean - sigma * std
or strictly above mean + sigma * std, and the emitted record is
(date, original value, lower bound, upper bound). -/
noncomputable def recordAt (o : Detector) (i : ℕ) : Option OutlierRecord :=
  match meanAt o.data o.N i, stdAt o.data o.N i with
  | some m, some s =>
      if o.data.getD i 0 < m - o.sigma * s ∨ m + o.sigma * s < o.data.getD i 0 then
        some
          { date := o.date.getD i 0
            value := o.data.getD i 0
            lower := some (m - o.sigma * s)
            upper := some (m + o.sigma * s) }
      else none
  | _, _ => none

/-- The outlier list described by the claims: records collected in series
order over the indices with defined rolling statistics. -/
noncomputable def outliersByIndex (o : Detector) : List OutlierRecord :=
  (List.range o.data.length).filterMap (recordAt o)

/-- The behaviour asserted by the swapped-binding reading of the source: the
computed upper-bound series plays the role of the variable named lower in
the filter and the lower-bound series the role of the variable named upper,
and the emitted record stores them accordingly. -/
noncomputable def find_outliers_swappedRoles (o : Detector) : List OutlierRecord :=
  ((zip4 o.date o.data (upper_bound o) (lower_bound o)).filter fun t =>
      decide (nanLT t.2.1 t.2.2.1 ∨ nanGT t.2.1 t.2.2.2)).map
    fun t => { date := t.1, value := t.2.1, lower := t.2.2.1, upper := t.2.2.2 }

/-- The direct-role formulation: the lower-bound series is zipped in third
position and bound to the variable named lower, the upper-bound series in
fourth position and bound to the variable named upper, and a value is kept
exactly when value < lower or value > upper. -/
noncomputable def find_outliers_directRoles (o : Detector) : List OutlierRecord :=
  ((zip4 o.date o.data (lower_bound o) (upper_bound o)).filter fun t =>
      decide (nanLT t.2.1 t.2.2.1 ∨ nanGT t.2.1 t.2.2.2)).map
    fun t => { date := t.1, value := t.2.1, lower := t.2.2.1, upper := t.2.2.2 }

end

/-- The number of indices of a bound series holding a defined (non-NaN)
cell. -/
def definedCount (l : List (Option ℝ)) : ℕ := (l.filter fun c => c.isSome).length

/-! ### Helper lemmas -/

lemma getD_map_range {α : Type} (f : ℕ → α) {n i : ℕ} (h : i < n) (d : α) :
    ((List.range n).map f).getD i d = f i := by
  simp [List.getD, List.getElem?_map, List.getElem?_range h]

lemma zip4_eq_map_range {α β γ δ : Type} (da : α) (db : β) (dc : γ) (dd : δ) :
    ∀ (n : ℕ) (as : List α) (bs : List β) (cs : List γ) (ds : List δ),
      as.length = n → bs.length = n → cs.length = n → ds.length = n →
      zip4 as bs cs ds =
        (List.range n).map fun i => (as.getD i da, bs.getD i db, cs.getD i dc, ds.getD i dd)
  | 0, as, bs, cs, ds, ha, hb, hc, hd => by
    rw [List.length_eq_zero] at ha hb hc hd
    subst ha; subst hb; subst hc; subst hd
    rfl
  | n + 1, [], _, _, _, ha, _, _, _ => by simp at ha
  | n + 1, _ :: _, [], _, _, _, hb, _, _ => by simp at hb
  | n + 1, _ :: _, _ :: _, [], _, _, _, hc, _ => by simp at hc
  | n + 1, _ :: _, _ :: _, _ :: _, [], _, _, _, hd => by simp at hd
  | n + 1, a :: as, b :: bs, c :: cs, d :: ds, ha, hb, hc, hd => by
    simp only [List.length_cons, Nat.add_right_cancel_iff] at ha hb hc hd
    rw [List.range_succ_eq_map, List.map_cons]
    simp only [List.getD_cons_zero, List.map_map]
    rw [zip4]
    congr 1
    rw [zip4_eq_map_range da db dc dd n as bs cs ds ha hb hc hd]
    apply List.map_congr_left
    intro i _
    simp [List.getD_cons_succ]

lemma filterMap_eq_filter_map_of {α β : Type} (q : α → Bool) (h : α → β) (F : α → Option β)
    (l : List α) (hpt : ∀ a ∈ l, F a = if q a then some (h a) else none) :
    l.filterMap F = (l.filter q).map h := by
  induction l with
  | nil => rfl
  | cons a l ih =>
    have ha := hpt a (List.mem_cons_self a l)
    have hl : ∀ x ∈ l, F x = if q x then some (h x) else none := fun x hx =>
      hpt x (List.mem_cons_of_mem a hx)
    cases hq : q a with
    | true =>
      rw [List.filterMap_cons, ha, hq, List.filter_cons_of_pos hq, List.map_cons, ih hl]
      simp
    | false =>
      rw [List.filterMap_cons, ha, hq, List.filter_cons_of_neg (by simp [hq]), ih hl]
      simp

lemma length_filterMap_le_of_isSome {α β γ : Type} (f : α → Option β) (g : α → Option γ)
    (l : List α) (h : ∀ a ∈ l, (f a).isSome → (g a).isSome) :
    (l.filterMap f).length ≤ (l.filterMap g).length := by
  induction l with
  | nil => exact Nat.le_refl 0
  | cons a l ih =>
    have ha := h a (List.mem_cons_self a l)
    have hl : ∀ x ∈ l, (f x).isSome → (g x).isSome := fun x hx =>
      h x (List.mem_cons_of_mem a hx)
    rw [List.filterMap_cons, List.filterMap_cons]
    cases hf : f a with
    | none =>
      cases hg : g a with
      | none => exact ih hl
      | some c => simpa using Nat.le_succ_of_le (ih hl)
    | some b =>
      have : (g a).isSome := ha (by rw [hf]; rfl)
      cases hg : g a with
      | none => rw [hg] at this; simp at this
      | some c => simpa using Nat.succ_le_succ (ih hl)

lemma length_filter_range_ge {n d : ℕ} (h : d ≤ n) :
    ((List.range n).filter fun i => decide (d ≤ i)).length = n - d := by
  induction n with
  | zero => simp
  | succ n ih =>
    rw [List.range_succ, List.filter_append, List.length_append]
    rcases Nat.lt_or_ge n d with hlt | hge
    · have hd : d = n + 1 := Nat.le_antisymm h hlt
      subst hd
      have h1 : ((List.range n).filter fun i => decide (n + 1 ≤ i)) = [] := by
        apply List.filter_eq_nil_iff.mpr
        intro a ha
        simp only [List.mem_range] at ha
        simp
        omega
      simp [h1]
    · have h2 : (List.filter (fun i => decide (d ≤ i)) [n]).length = 1 := by
        simp [hge]
      rw [ih hge, h2]
      omega

lemma upper_bound_eq_map_range (o : Detector) :
    upper_bound o = (List.range o.data.length).map fun i =>
      Option.map₂ (fun m s => m + o.sigma * s) (meanAt o.data o.N i) (stdAt o.data o.N i) := by
  rw [upper_bound, rollingMean, rollingStd, List.zipWith_map, List.zipWith_same]

lemma lower_bound_eq_map_range (o : Detector) :
    lower_bound o = (List.range o.data.length).map fun i =>
      Option.map₂ (fun m s => m - o.sigma * s) (meanAt o.data o.N i) (stdAt o.data o.N i) := by
  rw [lower_bound, rollingMean, rollingStd, List.zipWith_map, List.zipWith_same]

lemma upper_bound_length (o : Detector) : (upper_bound o).length = o.data.length := by
  rw [upper_bound_eq_map_range]; simp

lemma lower_bound_length (o : Detector) : (lower_bound o).length = o.data.length := by
  rw [lower_bound_eq_map_range]; simp

lemma find_outliers_eq_byIndex (o : Detector) (hlen : o.date.length = o.data.length) :
    find_outliers o = outliersByIndex o := by
  classical
  rw [find_outliers, outliersByIndex]
  rw [zip4_eq_map_range (0 : Date) (0 : ℝ) (none : Option ℝ) (none : Option ℝ)
    o.data.length o.date o.data (upper_bound o) (lower_bound o)
    hlen rfl (upper_bound_length o) (lower_bound_length o)]
  rw [List.filter_map, List.map_map]
  symm
  apply filterMap_eq_filter_map_of
  intro i hi
  rw [List.mem_range] at hi
  have hU : (upper_bound o).getD i none =
      Option.map₂ (fun m s => m + o.sigma * s) (meanAt o.data o.N i) (stdAt o.data o.N i) := by
    rw [upper_bound_eq_map_range]; exact getD_map_range _ hi _
  have hL : (lower_bound o).getD i none =
      Option.map₂ (fun m s => m - o.sigma * s) (meanAt o.data o.N i) (stdAt o.data o.N i) := by
    rw [lower_bound_eq_map_range]; exact getD_map_range _ hi _
  simp only [Function.comp_apply, hU, hL]
  cases hM : meanAt o.data o.N i with
  | none => simp [recordAt, hM, nanLT, nanGT]
  | some m =>
    cases hS : stdAt o.data o.N i with
    | none => simp [recordAt, hM, hS, nanLT, nanGT]
    | some s =>
      simp only [recordAt, hM, hS, Option.map₂_some_some]
      by_cases hc : o.data.getD i 0 < m - o.sigma * s ∨ m + o.sigma * s < o.data.getD i 0
      · simp [hc, nanLT, nanGT]
      · simp [hc, nanLT, nanGT]

/-! ### Claim theorems -/

/-- Claim C6: for every empty input series and any configuration, the
constructor fails with the empty-input error, before any other validation or
computation: the returned frame state is the untouched input frame. -/
theorem init_empty_input (df : DataFrame) (ws : ℤ) (σ : ℝ) (sd ed : Option Date)
    (h : df.rows = []) :
    init df ws σ sd ed = (Except.error InitError.emptyInput, df) := by
  simp [init, h]

/-- Witness for C6 at a concrete empty frame. -/
theorem init_empty_input_witness :
    init ⟨["a", "b"], DType.str, []⟩ 2 1 none none =
      (Except.error InitError.emptyInput, ⟨["a", "b"], DType.str, []⟩) :=
  init_empty_input ⟨["a", "b"], DType.str, []⟩ 2 1 none none rfl

/-- Claim C7: for every non-empty input series, a window size exceeding the
series length makes the constructor fail with the window-too-large error;
no detector is produced, and no statistics are computed (the model computes
rolling statistics only in find_outliers, never in init). -/
theorem init_window_too_large (df : DataFrame) (ws : ℤ) (σ : ℝ) (sd ed : Option Date)
    (hne : df.rows ≠ []) (hw : (df.rows.length : ℤ) < ws) :
    (init df ws σ sd ed).1 = Except.error InitError.windowTooLarge := by
  simp [init, hne, hw]

/-- Witness for C7: a one-row series with window size 5. -/
theorem init_window_too_large_witness :
    (init ⟨["d", "v"], DType.str, [(0, 1)]⟩ 5 1 none none).1 =
      Except.error InitError.windowTooLarge :=
  init_window_too_large ⟨["d", "v"], DType.str, [(0, 1)]⟩ 5 1 none none
    (by simp) (by norm_num)

/-- Claim C10: construction checks neither positivity of the window size nor
non-negativity of sigma: whenever the series is non-empty and the window
size does not exceed its length, construction succeeds, for every window
size (zero and negative included) and every sigma (negative included). -/
theorem init_no_positivity_checks (df : DataFrame) (ws : ℤ) (σ : ℝ) (sd ed : Option Date)
    (hne : df.rows ≠ []) (hw : ws ≤ (df.rows.length : ℤ)) :
    ∃ det, (init df ws σ sd ed).1 = Except.ok det := by
  exact ⟨_, by simp [init, hne, not_lt.mpr hw]; rfl⟩

/-- Witness for C10: window size 0 and sigma -1 on a one-row series. -/
theorem init_no_positivity_checks_witness :
    ∃ det, (init ⟨["d", "v"], DType.str, [(0, 1)]⟩ 0 (-1) none none).1 = Except.ok det :=
  init_no_positivity_checks ⟨["d", "v"], DType.str, [(0, 1)]⟩ 0 (-1) none none
    (by simp) (by norm_num)

/-- Claim C5: date-range resolution at construction distinguishes the four
cases: both dates given are used as-is; a missing end date defaults to the
maximum date of the series; a missing start date defaults to the minimum
date; with neither given, both default to the series extremes. -/
theorem init_date_resolution (df : DataFrame) (ws : ℤ) (σ : ℝ) (sd ed : Option Date)
    (det : Detector) (df₂ : DataFrame)
    (h : init df ws σ sd ed = (Except.ok det, df₂)) :
    (∀ s e, sd = some s → ed = some e → det.start = s ∧ det.endDate = e) ∧
    (∀ s, sd = some s → ed = none → det.start = s ∧
      det.endDate = maxDate (df.rows.map Prod.fst)) ∧
    (∀ e, sd = none → ed = some e → det.start = minDate (df.rows.map Prod.fst) ∧
      det.endDate = e) ∧
    (sd = none → ed = none → det.start = minDate (df.rows.map Prod.fst) ∧
      det.endDate = maxDate (df.rows.map Prod.fst)) := by
  by_cases hne : df.rows.isEmpty = true
  · simp [init, hne] at h
  · rcases sd with _ | s <;> rcases ed with _ | e <;>
    · simp only [init, hne, Bool.false_eq_true, if_false] at h
      split_ifs at h with hw
      · simp at h
      · rw [Prod.mk.injEq] at h
        obtain ⟨h1, h2⟩ := h
        rw [Except.ok.injEq] at h1
        subst h1
        refine ⟨?_, ?_, ?_, ?_⟩ <;> intros <;> simp_all

/-- Witness for C5: a concrete successful construction in the neither-given
case resolves to the series' minimum and maximum dates. -/
theorem init_date_resolution_witness :
    (∀ s e, (none : Option Date) = some s → (none : Option Date) = some e →
      (⟨[2, 4], [5, 3], 1, 1, 3, 5⟩ : Detector).start = s ∧
      (⟨[2, 4], [5, 3], 1, 1, 3, 5⟩ : Detector).endDate = e) ∧
    (∀ s, (none : Option Date) = some s → (none : Option Date) = none →
      (⟨[2, 4], [5, 3], 1, 1, 3, 5⟩ : Detector).start = s ∧
      (⟨[2, 4], [5, 3], 1, 1, 3, 5⟩ : Detector).endDate =
        maxDate ((⟨["d", "v"], DType.str, [(5, 2), (3, 4)]⟩ : DataFrame).rows.map Prod.fst)) ∧
    (∀ e, (none : Option Date) = none → (none : Option Date) = some e →
      (⟨[2, 4], [5, 3], 1, 1, 3, 5⟩ : Detector).start =
        minDate ((⟨["d", "v"], DType.str, [(5, 2), (3, 4)]⟩ : DataFrame).rows.map Prod.fst) ∧
      (⟨[2, 4], [5, 3], 1, 1, 3, 5⟩ : Detector).endDate = e) ∧
    ((none : Option Date) = none → (none : Option Date) = none →
      (⟨[2, 4], [5, 3], 1, 1, 3, 5⟩ : Detector).start =
        minDate ((⟨["d", "v"], DType.str, [(5, 2), (3, 4)]⟩ : DataFrame).rows.map Prod.fst) ∧
      (⟨[2, 4], [5, 3], 1, 1, 3, 5⟩ : Detector).endDate =
        maxDate ((⟨["d", "v"], DType.str, [(5, 2), (3, 4)]⟩ : DataFrame).rows.map Prod.fst)) :=
  init_date_resolution ⟨["d", "v"], DType.str, [(5, 2), (3, 4)]⟩ 1 1 none none
    ⟨[2, 4], [5, 3], 1, 1, 3, 5⟩ ⟨["Date", "Value"], DType.datetime, [(5, 2), (3, 4)]⟩ rfl

/-- Counterexample for C9 as stated: after a concrete construction the
caller's frame state is not the input frame (its column names and date
column type changed). -/
theorem init_mutation_counterexample :
    (init ⟨["d", "v"], DType.str, [(0, 1)]⟩ 1 1 none none).2 ≠
      ⟨["d", "v"], DType.str, [(0, 1)]⟩ := by
  intro h
  have h2 : (init ⟨["d", "v"], DType.str, [(0, 1)]⟩ 1 1 none none).2.dateType =
      DType.datetime := rfl
  rw [h] at h2
  simp at h2

/-- Claim C9 (amended): construction does mutate the caller's frame: for
every non-empty input, after init the frame has its columns renamed to
Date and Value and its date column coerced to datetime, the rows staying
as they were. -/
theorem init_mutates_frame (df : DataFrame) (ws : ℤ) (σ : ℝ) (sd ed : Option Date)
    (hne : df.rows ≠ []) :
    (init df ws σ sd ed).2 =
      { df with cols := ["Date", "Value"], dateType := DType.datetime } := by
  simp only [init]
  rw [if_neg (by simp [hne])]
  split <;> rfl

/-- Witness for C9 (amended) at a concrete one-row frame. -/
theorem init_mutates_frame_witness :
    (init ⟨["d", "v"], DType.str, [(0, 1)]⟩ 1 1 none none).2 =
      { (⟨["d", "v"], DType.str, [(0, 1)]⟩ : DataFrame) with
        cols := ["Date", "Value"], dateType := DType.datetime } :=
  init_mutates_frame ⟨["d", "v"], DType.str, [(0, 1)]⟩ 1 1 none none (by simp)

/-- Claim C1: for every validated detector, get_outliers returns the success
tag with the no-anomalies marker exactly when the pre-filter outlier list of
find_outliers is empty; otherwise it returns the failure tag with the
records filtered to dates in the inclusive start-end range, the tag being
decided by the pre-filter list. -/
theorem get_outliers_tagging (o : Detector) (hne : o.data ≠ [])
    (hw : o.N ≤ (o.data.length : ℤ)) :
    (get_outliers o = ("Sucess", Sum.inl "No anomalies found") ↔ find_outliers o = []) ∧
    (find_outliers o ≠ [] →
      get_outliers o = ("Failure",
        Sum.inr ((find_outliers o).filter fun r =>
          decide (o.start ≤ r.date ∧ r.date ≤ o.endDate)))) := by
  constructor
  · constructor
    · intro h
      by_contra hne'
      have hlen : (find_outliers o).length ≠ 0 := by
        simpa [List.length_eq_zero] using hne'
      rw [get_outliers] at h
      simp only [hlen, if_false] at h
      have h1 : ("Failure" : String) = "Sucess" := congrArg Prod.fst h
      exact absurd h1 (by decide)
    · intro h
      simp [get_outliers, h]
  · intro h
    have hlen : (find_outliers o).length ≠ 0 := by
      simpa [List.length_eq_zero] using h
    simp [get_outliers, hlen]

/-- Witness for C1 at a concrete validated detector. -/
theorem get_outliers_tagging_witness :
    (get_outliers ⟨[1, 3, 5], [0, 1, 2], 2, 3, 5, 9⟩ =
        ("Sucess", Sum.inl "No anomalies found") ↔
      find_outliers ⟨[1, 3, 5], [0, 1, 2], 2, 3, 5, 9⟩ = []) ∧
    (find_outliers ⟨[1, 3, 5], [0, 1, 2], 2, 3, 5, 9⟩ ≠ [] →
      get_outliers ⟨[1, 3, 5], [0, 1, 2], 2, 3, 5, 9⟩ = ("Failure",
        Sum.inr ((find_outliers ⟨[1, 3, 5], [0, 1, 2], 2, 3, 5, 9⟩).filter fun r =>
          decide ((5 : Date) ≤ r.date ∧ r.date ≤ 9)))) :=
  get_outliers_tagging ⟨[1, 3, 5], [0, 1, 2], 2, 3, 5, 9⟩ (by simp) (by decide)

/-- Claim C2: find_outliers coincides with the index-wise description: at
every index with defined rolling mean and standard deviation, the original
value is classified as an outlier exactly when it is strictly below
mean - sigma * std or strictly above mean + sigma * std, and the matching
records (date, original value, lower bound, upper bound) are produced in
series order. -/
theorem find_outliers_characterization (o : Detector)
    (hlen : o.date.length = o.data.length) :
    find_outliers o = outliersByIndex o :=
  find_outliers_eq_byIndex o hlen

/-- Witness for C2 at a concrete detector. -/
theorem find_outliers_characterization_witness :
    find_outliers ⟨[1, 3, 5], [0, 1, 2], 2, 3, 0, 2⟩ =
      outliersByIndex ⟨[1, 3, 5], [0, 1, 2], 2, 3, 0, 2⟩ :=
  find_outliers_characterization ⟨[1, 3, 5], [0, 1, 2], 2, 3, 0, 2⟩ rfl

lemma zip4_swap34 {α β γ δ : Type} :
    ∀ (as : List α) (bs : List β) (cs : List γ) (ds : List δ),
      zip4 as bs cs ds = (zip4 as bs ds cs).map fun t => (t.1, t.2.1, t.2.2.2, t.2.2.1)
  | a :: as, b :: bs, c :: cs, d :: ds => by
    rw [zip4, zip4, List.map_cons, zip4_swap34 as bs cs ds]
  | [], _, _, _ => rfl
  | _ :: _, [], _, _ => rfl
  | _ :: _, _ :: _, [], [] => rfl
  | _ :: _, _ :: _, [], _ :: _ => rfl
  | _ :: _, _ :: _, _ :: _, [] => rfl

/-- Claim C3 (amended): there is no swap: the zip binds the computed
upper-bound series to the variable used as upper and the lower-bound series
to the variable used as lower, so find_outliers coincides with the
direct-role formulation that tests value < lower_bound or
value > upper_bound. -/
theorem find_outliers_no_swap (o : Detector) :
    find_outliers o = find_outliers_directRoles o := by
  rw [find_outliers, find_outliers_directRoles,
    zip4_swap34 o.date o.data (upper_bound o) (lower_bound o),
    List.filter_map, List.map_map]
  rfl

lemma sampleVar_135 : sampleVar [(1 : ℝ), 3, 5] = 4 := by
  simp [sampleVar, listMean]
  norm_num

lemma meanAt_135 : meanAt [(1 : ℝ), 3, 5] 3 2 = some 3 := by
  have hcond : (1 : ℤ) ≤ 3 ∧ (3 : ℤ) ≤ (2 : ℕ) + 1 := by constructor <;> norm_num
  have hwin : windowSlice [(1 : ℝ), 3, 5] (Int.toNat 3) 2 = [1, 3, 5] := rfl
  rw [meanAt, if_pos hcond, hwin]
  simp [listMean]
  norm_num

lemma stdAt_135 : stdAt [(1 : ℝ), 3, 5] 3 2 = some 2 := by
  have hcond : (2 : ℤ) ≤ 3 ∧ (3 : ℤ) ≤ (2 : ℕ) + 1 := by constructor <;> norm_num
  have hwin : windowSlice [(1 : ℝ), 3, 5] (Int.toNat 3) 2 = [1, 3, 5] := rfl
  rw [stdAt, if_pos hcond, hwin, sampleVar_135]
  rw [show (4 : ℝ) = 2 ^ 2 by norm_num, Real.sqrt_sq (by norm_num)]

lemma meanAt_135_early (i : ℕ) (hi : i < 2) : meanAt [(1 : ℝ), 3, 5] 3 i = none := by
  rw [meanAt, if_neg]
  rintro ⟨-, h⟩
  omega

lemma stdAt_135_early (i : ℕ) (hi : i < 2) : stdAt [(1 : ℝ), 3, 5] 3 i = none := by
  rw [stdAt, if_neg]
  rintro ⟨-, h⟩
  omega

lemma upper_bound_w3 :
    upper_bound ⟨[1, 3, 5], [0, 1, 2], 2, 3, 0, 2⟩ = [none, none, some 7] := by
  rw [upper_bound_eq_map_range]
  show List.map _ (List.range 3) = _
  rw [List.range_succ, List.range_succ, List.range_succ, List.range_zero]
  simp only [List.nil_append, List.cons_append, List.map_cons, List.map_nil]
  rw [meanAt_135_early 0 (by omega), meanAt_135_early 1 (by omega),
    stdAt_135_early 0 (by omega), stdAt_135_early 1 (by omega), meanAt_135, stdAt_135]
  simp
  norm_num

lemma lower_bound_w3 :
    lower_bound ⟨[1, 3, 5], [0, 1, 2], 2, 3, 0, 2⟩ = [none, none, some (-1)] := by
  rw [lower_bound_eq_map_range]
  show List.map _ (List.range 3) = _
  rw [List.range_succ, List.range_succ, List.range_succ, List.range_zero]
  simp only [List.nil_append, List.cons_append, List.map_cons, List.map_nil]
  rw [meanAt_135_early 0 (by omega), meanAt_135_early 1 (by omega),
    stdAt_135_early 0 (by omega), stdAt_135_early 1 (by omega), meanAt_135, stdAt_135]
  simp
  norm_num

lemma find_outliers_w3 : find_outliers ⟨[1, 3, 5], [0, 1, 2], 2, 3, 0, 2⟩ = [] := by
  classical
  rw [find_outliers, upper_bound_w3, lower_bound_w3]
  show (List.filter _ (zip4 [(0 : Date), 1, 2] [(1 : ℝ), 3, 5]
    [none, none, some 7] [none, none, some (-1)])).map _ = _
  simp only [zip4]
  rw [List.filter_cons_of_neg (by simp [nanLT, nanGT]),
    List.filter_cons_of_neg (by simp [nanLT, nanGT]),
    List.filter_cons_of_neg (by simp [nanLT, nanGT]; norm_num)]
  rfl

lemma find_outliers_swappedRoles_w3 :
    find_outliers_swappedRoles ⟨[1, 3, 5], [0, 1, 2], 2, 3, 0, 2⟩ =
      [⟨2, 5, some 7, some (-1)⟩] := by
  classical
  rw [find_outliers_swappedRoles, upper_bound_w3, lower_bound_w3]
  show (List.filter _ (zip4 [(0 : Date), 1, 2] [(1 : ℝ), 3, 5]
    [none, none, some 7] [none, none, some (-1)])).map _ = _
  simp only [zip4]
  rw [List.filter_cons_of_neg (by simp [nanLT, nanGT]),
    List.filter_cons_of_neg (by simp [nanLT, nanGT]),
    List.filter_cons_of_pos (by simp [nanLT, nanGT]; norm_num)]
  rfl

/-- Counterexample for C3 as stated: at a concrete detector the output of
find_outliers differs from the output the claimed swapped binding would
produce, so the zip does not bind the bound series in swapped roles. -/
theorem find_outliers_swap_counterexample :
    find_outliers ⟨[1, 3, 5], [0, 1, 2], 2, 3, 0, 2⟩ ≠
      find_outliers_swappedRoles ⟨[1, 3, 5], [0, 1, 2], 2, 3, 0, 2⟩ := by
  rw [find_outliers_w3, find_outliers_swappedRoles_w3]
  simp

lemma stdAt_eq_some (xs : List ℝ) (N : ℤ) (i : ℕ) (s : ℝ) (h : stdAt xs N i = some s) :
    (2 ≤ N ∧ N ≤ (i : ℤ) + 1) ∧ 0 ≤ s := by
  rw [stdAt] at h
  split_ifs at h with hc
  rw [Option.some.injEq] at h
  exact ⟨hc, h ▸ Real.sqrt_nonneg _⟩

lemma definedCount_map₂_range (g : ℝ → ℝ → ℝ) (o : Detector) (h2 : 2 ≤ o.N)
    (hL : o.N ≤ (o.data.length : ℤ)) :
    definedCount ((List.range o.data.length).map fun i =>
      Option.map₂ g (meanAt o.data o.N i) (stdAt o.data o.N i)) =
    o.data.length - o.N.toNat + 1 := by
  rw [definedCount, List.filter_map, List.length_map]
  have hcong : (List.range o.data.length).filter
      ((fun c : Option ℝ => c.isSome) ∘ fun i =>
        Option.map₂ g (meanAt o.data o.N i) (stdAt o.data o.N i)) =
      (List.range o.data.length).filter fun i => decide (o.N.toNat - 1 ≤ i) := by
    apply List.filter_congr
    intro i hi
    rw [List.mem_range] at hi
    simp only [Function.comp_apply]
    by_cases hc : o.N ≤ (i : ℤ) + 1
    · have hm : 1 ≤ o.N ∧ o.N ≤ (i : ℤ) + 1 := ⟨by omega, hc⟩
      have hsc : 2 ≤ o.N ∧ o.N ≤ (i : ℤ) + 1 := ⟨h2, hc⟩
      rw [meanAt, stdAt, if_pos hm, if_pos hsc, Option.map₂_some_some,
        decide_eq_true (show o.N.toNat - 1 ≤ i by omega)]
      rfl
    · have hsc : ¬(2 ≤ o.N ∧ o.N ≤ (i : ℤ) + 1) := fun hh => hc hh.2
      rw [stdAt, if_neg hsc, Option.map₂_none_right,
        decide_eq_false (show ¬(o.N.toNat - 1 ≤ i) by omega)]
      rfl
  rw [hcong, length_filter_range_ge (by omega)]
  omega

/-- Claim C4 (amended, window size at least 2): for every detector with
2 <= W <= L, the rolling mean and sample standard deviation at index i are
defined exactly when i >= W - 1 (and are no-value otherwise), a defined
index covers exactly the W trailing values, the number of indices with a
defined bound equals L - W + 1, and no record of find_outliers comes from
an index without a full trailing window. -/
theorem rolling_window_definedness (o : Detector) (h2 : 2 ≤ o.N)
    (hL : o.N ≤ (o.data.length : ℤ)) (hlen : o.date.length = o.data.length) :
    (∀ i, i < o.data.length →
      ((((rollingMean o.data o.N).getD i none).isSome = true ∧
        ((rollingStd o.data o.N).getD i none).isSome = true) ↔ o.N - 1 ≤ (i : ℤ))) ∧
    (∀ i, i < o.data.length → o.N - 1 ≤ (i : ℤ) →
      (windowSlice o.data o.N.toNat i).length = o.N.toNat) ∧
    definedCount (upper_bound o) = o.data.length - o.N.toNat + 1 ∧
    definedCount (lower_bound o) = o.data.length - o.N.toNat + 1 ∧
    (∀ r ∈ find_outliers o, ∃ i : ℕ, o.N - 1 ≤ (i : ℤ) ∧ i < o.data.length ∧
      r.date = o.date.getD i 0 ∧ r.value = o.data.getD i 0) := by
  refine ⟨?_, ?_, ?_, ?_, ?_⟩
  · intro i hi
    rw [rollingMean, rollingStd, getD_map_range _ hi, getD_map_range _ hi, meanAt, stdAt]
    constructor
    · rintro ⟨-, hs⟩
      by_cases hc : 2 ≤ o.N ∧ o.N ≤ (i : ℤ) + 1
      · omega
      · rw [if_neg hc] at hs
        simp at hs
    · intro hge
      have hc1 : 1 ≤ o.N ∧ o.N ≤ (i : ℤ) + 1 := by omega
      have hc2 : 2 ≤ o.N ∧ o.N ≤ (i : ℤ) + 1 := by omega
      rw [if_pos hc1, if_pos hc2]
      exact ⟨rfl, rfl⟩
  · intro i hi hge
    rw [windowSlice, List.length_drop, List.length_take]
    omega
  · rw [upper_bound_eq_map_range]
    exact definedCount_map₂_range _ o h2 hL
  · rw [lower_bound_eq_map_range]
    exact definedCount_map₂_range _ o h2 hL
  · intro r hr
    rw [find_outliers_eq_byIndex o hlen, outliersByIndex, List.mem_filterMap] at hr
    obtain ⟨i, hi, hrec⟩ := hr
    rw [List.mem_range] at hi
    cases hM : meanAt o.data o.N i with
    | none => simp [recordAt, hM] at hrec
    | some m =>
      cases hS : stdAt o.data o.N i with
      | none => simp [recordAt, hM, hS] at hrec
      | some s =>
        simp only [recordAt, hM, hS] at hrec
        split_ifs at hrec with hc
        rw [Option.some.injEq] at hrec
        obtain ⟨hcond, -⟩ := stdAt_eq_some o.data o.N i s hS
        exact ⟨i, by omega, hi, by rw [← hrec], by rw [← hrec]⟩

/-- Witness for C4 (amended) at a concrete detector with window size 2
over three points. -/
theorem rolling_window_definedness_witness :
    definedCount (upper_bound ⟨[1, 3, 5], [0, 1, 2], 1, 2, 0, 2⟩) = 2 :=
  (rolling_window_definedness ⟨[1, 3, 5], [0, 1, 2], 1, 2, 0, 2⟩
    (by decide) (by decide) rfl).2.2.1

lemma upper_bound_w4 : upper_bound ⟨[1, 2], [0, 1], 1, 1, 0, 1⟩ = [none, none] := by
  have hstd : ∀ i, stdAt [(1 : ℝ), 2] 1 i = none := by
    intro i
    rw [stdAt, if_neg]
    rintro ⟨h, -⟩
    omega
  rw [upper_bound_eq_map_range]
  show List.map _ (List.range 2) = _
  rw [List.range_succ, List.range_succ, List.range_zero]
  simp only [List.nil_append, List.cons_append, List.map_cons, List.map_nil]
  rw [hstd 0, hstd 1]
  simp

/-- Counterexample for C4 as stated: with window size 1 (allowed by the
claim, which only requires W <= L), the sample standard deviation has a
zero denominator and every cell of the bound series is NaN, so the number
of defined bounds is 0, not L - W + 1 = 2. -/
theorem rolling_window_definedness_counterexample :
    definedCount (upper_bound ⟨[1, 2], [0, 1], 1, 1, 0, 1⟩) ≠
      (⟨[1, 2], [0, 1], 1, 1, 0, 1⟩ : Detector).data.length -
        (⟨[1, 2], [0, 1], 1, 1, 0, 1⟩ : Detector).N.toNat + 1 := by
  rw [upper_bound_w4]
  decide

/-- Claim C8: for a fixed validated series and window, raising sigma (both
sigmas non-negative) never increases the number of detected outliers. -/
theorem sigma_monotonicity (o₁ o₂ : Detector) (hdata : o₂.data = o₁.data)
    (hdate : o₂.date = o₁.date) (hN : o₂.N = o₁.N)
    (hlen : o₁.date.length = o₁.data.length)
    (h0 : 0 ≤ o₁.sigma) (hs : o₁.sigma ≤ o₂.sigma) :
    (find_outliers o₂).length ≤ (find_outliers o₁).length := by
  rw [find_outliers_eq_byIndex o₁ hlen,
    find_outliers_eq_byIndex o₂ (by rw [hdata, hdate]; exact hlen)]
  rw [outliersByIndex, outliersByIndex, hdata]
  apply length_filterMap_le_of_isSome
  intro i hi hsome
  simp only [recordAt, hdata, hN] at hsome ⊢
  cases hM : meanAt o₁.data o₁.N i with
  | none => rw [hM] at hsome; simp at hsome
  | some m =>
    rw [hM] at hsome
    cases hS : stdAt o₁.data o₁.N i with
    | none => rw [hS] at hsome; simp at hsome
    | some s =>
      rw [hS] at hsome
      have hs0 : 0 ≤ s := (stdAt_eq_some o₁.data o₁.N i s hS).2
      have hmul : o₁.sigma * s ≤ o₂.sigma * s := mul_le_mul_of_nonneg_right hs hs0
      dsimp only at hsome ⊢
      split_ifs at hsome with hc₂
      · rw [if_pos]
        · rfl
        · rcases hc₂ with hlow | hhigh
          · exact Or.inl (by linarith)
          · exact Or.inr (by linarith)
      · simp at hsome

/-- Witness for C8: the same three-point series and window with sigma
raised from 1 to 2. -/
theorem sigma_monotonicity_witness :
    (find_outliers ⟨[1, 3, 5], [0, 1, 2], 2, 2, 0, 2⟩).length ≤
      (find_outliers ⟨[1, 3, 5], [0, 1, 2], 1, 2, 0, 2⟩).length :=
  sigma_monotonicity ⟨[1, 3, 5], [0, 1, 2], 1, 2, 0, 2⟩ ⟨[1, 3, 5], [0, 1, 2], 2, 2, 0, 2⟩
    rfl rfl rfl rfl (by norm_num) (by norm_num)

end MovingAverage
